import Mathlib

/-!
Verification of the ai-chatbot-poc repository (src/backend.py, src/chatbot.py).

The two Python files are shallowly embedded here.  Every call to the external
OpenAI API is modelled by an oracle argument of type `Except Unit _`:
`.ok s` means the API returned the string (or parsed structure) `s`,
`.error ()` means the API call raised an exception.  Python exceptions are
made explicit with the error monad `PyM := Except PyErr`.  The data files
`products.json`, `orders.json` and `return_policy.json` are not part of the
source tree, so every definition is parametrised by the product catalog, the
orders table and the policy text.

Unicode caveat: Python's `str.lower`, `\d`, `\w` and `str.isdigit` are
Unicode-aware; the embedding models their ASCII behaviour (`Char.toLower`,
ASCII digits, ASCII word characters), which is exact on all keyword lists and
inputs relevant to the claims.
-/

/-- Python exception kinds that the embedded code can raise. -/
inductive PyErr where
  | apiThrow      -- an exception escaping an OpenAI API call
  | indexError    -- list index out of range
  | keyError      -- missing dictionary key
  | stopIteration -- `next()` on an exhausted generator
  deriving Repr, DecidableEq

/-- Computations that can raise a Python exception. -/
abbrev PyM (α : Type) : Type := Except PyErr α

deriving instance DecidableEq for Except

/-- Run an API-call oracle: an oracle error becomes an escaping exception. -/
def api {α : Type} : Except Unit α → PyM α
  | .error () => .error .apiThrow
  | .ok a => .ok a

/-- ASCII lowercasing, modelling Python `str.lower()` on ASCII input. -/
def lowerStr (s : String) : String := String.mk (s.toList.map Char.toLower)

/-- Does `n` occur as an initial segment of `l`? -/
def startsWithList : List Char → List Char → Bool
  | [], _ => true
  | _ :: _, [] => false
  | a :: as, b :: bs => a == b && startsWithList as bs

/-- Does `n` occur as a contiguous sublist of `l`? -/
def occursIn (n : List Char) : List Char → Bool
  | [] => n.isEmpty
  | b :: bs => startsWithList n (b :: bs) || occursIn n bs

/-- Python's `needle in hay` on strings (substring containment). -/
def substrOf (needle hay : String) : Bool := occursIn needle.toList hay.toList

/-- Python's `s.startswith(p)`. -/
def pyStartsWith (s p : String) : Bool := startsWithList p.toList s.toList

/-- Word accumulator for `pySplitWs`; `cur` holds the current word reversed. -/
def wordsAux (cur : List Char) : List Char → List String
  | [] => if cur.isEmpty then [] else [String.mk cur.reverse]
  | c :: cs =>
    if c.isWhitespace then
      if cur.isEmpty then wordsAux [] cs
      else String.mk cur.reverse :: wordsAux [] cs
    else wordsAux (c :: cur) cs

/-- Python's `s.split()` (split on whitespace runs, dropping empty pieces). -/
def pySplitWs (s : String) : List String := wordsAux [] s.toList

/-- Python's `s.strip()`: drop leading and trailing whitespace. -/
def pyStrip (s : String) : String :=
  String.mk (((s.toList.dropWhile Char.isWhitespace).reverse.dropWhile
    Char.isWhitespace).reverse)

/-- Is every character an ASCII digit?  With nonemptiness this models
Python `str.isdigit()` on ASCII strings. -/
def allDigits (s : String) : Bool := s.toList.all (fun c => c.isDigit)

/-- A catalog entry from `products.json`: the fields the code reads. -/
structure Product where
  name : String
  price : String
  stock : String
  deriving Repr, DecidableEq

/-- An entry of `orders.json`: the fields the code reads. -/
structure OrderInfo where
  status : String
  delivery_date : String
  deriving Repr, DecidableEq

/-! ## chatbot.py -/

/-- `chatbot.detect_intent`: keyword intent classifier. -/
def detect_intent (user_input : String) : String :=
  let text := lowerStr user_input
  if substrOf "order" text || substrOf "#" text then "order"
  else if substrOf "return" text || substrOf "refund" text then "refund"
  else if substrOf "product" text || substrOf "price" text then "product"
  else "unknown"

/-- First word of a Python `s.split()`; `none` models the `IndexError`
of `[0]` on a whitespace-only string. -/
def firstWordOf (s : String) : Option String := (pySplitWs s).head?

/-- Loop body of `chatbot.handle_product`: iterate over the catalog in order,
matching the lowercased first word of each product name against the raw
user input. -/
def handleProductLoop (user_input : String) : List Product → PyM String
  | [] => .ok "Can you specify which product you mean?"
  | info :: rest =>
    match firstWordOf (lowerStr info.name) with
    | none => .error .indexError
    | some w =>
      if substrOf w user_input then
        .ok s!"{info.name} costs {info.price} and is {info.stock}."
      else handleProductLoop user_input rest

/-- `chatbot.handle_product`. -/
def handle_product (products : List Product) (user_input : String) : PyM String :=
  handleProductLoop user_input products

/-- `chatbot.fallback_llm`: a bare API call with no try/except. -/
def fallback_llm (llm : Except Unit String) : PyM String := api llm

/-! ## backend.py : memory, language, extraction -/

/-- The process-global memory dictionary (`backend.py`, lines 38–43). -/
structure Memory where
  conversation_products : List String
  order_product : Option String
  last_intent : Option String
  last_order_id : Option String
  deriving Repr, DecidableEq

/-- Initial value of the global `memory` dictionary. -/
def memory : Memory :=
  { conversation_products := [], order_product := none,
    last_intent := none, last_order_id := none }

/-- Python truthiness of an optional string (`None` and `""` are falsy). -/
def truthyStr : Option String → Bool
  | none => false
  | some s => s != ""

/-- `backend.detect_explicit_language_request`. -/
def detect_explicit_language_request (msg : String) : Option String :=
  let lowered := lowerStr msg
  if substrOf "respond me in arabic" lowered || substrOf "reply in arabic" lowered then
    some "Arabic"
  else if substrOf "respond me in turkish" lowered || substrOf "reply in turkish" lowered then
    some "Turkish"
  else if substrOf "respond me in english" lowered || substrOf "reply in english" lowered then
    some "English"
  else if substrOf "respond me in spanish" lowered || substrOf "reply in spanish" lowered then
    some "Spanish"
  else none

/-- The four language names accepted from the LLM fallback in
`backend.detect_language`. -/
def supported_languages : List String := ["English", "Turkish", "Arabic", "Spanish"]

/-- `backend.detect_language`.  `iso` is the `langdetect` result
(`none` models the library raising, which the code catches);
`llm` is the LLM fallback call (`.error ()` models the API raising,
which escapes). -/
def detect_language (msg : String) (iso : Option String)
    (llm : Except Unit String) : PyM String :=
  match detect_explicit_language_request msg with
  | some forced => .ok forced
  | none =>
    match iso with
    | some lang =>
      if pyStartsWith lang "en" then .ok "English"
      else if pyStartsWith lang "tr" then .ok "Turkish"
      else if pyStartsWith lang "ar" then .ok "Arabic"
      else if pyStartsWith lang "es" then .ok "Spanish"
      else .ok "English"
    | none =>
      match api llm with
      | .error e => .error e
      | .ok r =>
        let detected := pyStrip r
        .ok (if supported_languages.contains detected then detected else "English")

/-- `backend.ai_topic_recall`: one unguarded API call, answer compared to "yes". -/
def ai_topic_recall (_msg : String) (llm : Except Unit String) : PyM Bool :=
  match api llm with
  | .error e => .error e
  | .ok r => .ok (lowerStr (pyStrip r) == "yes")

/-- `backend.ai_order_id_missing`: one unguarded API call, answer compared to "yes". -/
def ai_order_id_missing (_msg : String) (llm : Except Unit String) : PyM Bool :=
  match api llm with
  | .error e => .error e
  | .ok r => .ok (lowerStr (pyStrip r) == "yes")

/-- Word character for the regex word boundary `\b` (ASCII fragment of `\w`). -/
def isWordChar (c : Char) : Bool := c.isAlphanum || c == '_'

/-- Match of `\b(\d{5})\b` anchored at the head of the character list:
five ASCII digits followed by a non-word character or the end. -/
def fiveDigitsAt : List Char → Option String
  | a :: b :: c :: d :: e :: rest =>
    if a.isDigit && b.isDigit && c.isDigit && d.isDigit && e.isDigit &&
        (match rest with | [] => true | x :: _ => !isWordChar x) then
      some (String.mk [a, b, c, d, e])
    else none
  | _ => none

/-- Left-to-right scan for the first match of `\b(\d{5})\b`; `prevWord`
records whether the previous character was a word character (the left
boundary condition). -/
def findFiveAux (prevWord : Bool) : List Char → Option String
  | [] => none
  | c :: cs =>
    match (if prevWord then none else fiveDigitsAt (c :: cs)) with
    | some s => some s
    | none => findFiveAux (isWordChar c) cs

/-- First match of `re.findall(r"\b(\d{5})\b", msg)` (the only element the
code uses is `ids[0]`). -/
def findFive (msg : String) : Option String := findFiveAux false msg.toList

/-- Python `str.isdigit()` on ASCII strings: nonempty and all digits. -/
def pyIsDigit (s : String) : Bool := s != "" && allDigits s

/-- `backend.extract_order_id`: regex first, LLM fallback second, the LLM
answer accepted only when it is exactly five digits. -/
def extract_order_id (msg : String) (llm : Except Unit String) : PyM (Option String) :=
  match findFive msg with
  | some id => .ok (some id)
  | none =>
    match api llm with
    | .error e => .error e
    | .ok r =>
      let ans := pyStrip r
      .ok (if pyIsDigit ans && ans.length == 5 then some ans else none)

/-- The hardcoded keyword → product map of
`backend.extract_product_from_order_context`, in source order. -/
def keyword_map : List (String × String) :=
  [("earbud", "Wireless Earbuds"),
   ("earbuds", "Wireless Earbuds"),
   ("kulak", "Wireless Earbuds"),
   ("headphone", "Noise Cancelling Headphones"),
   ("speaker", "Bluetooth Speaker Mini"),
   ("hoparlör", "Bluetooth Speaker Mini"),
   ("kamera", "4K Action Camera"),
   ("camera", "4K Action Camera"),
   ("كاميرا", "4K Action Camera"),
   ("سماعة", "Wireless Earbuds"),
   ("fitness", "Fitness Tracker Band"),
   ("spor", "Fitness Tracker Band")]

/-- `backend.extract_product_from_order_context`: direct catalog-name
substring match, then the keyword map, then the LLM whose answer is accepted
only when it is one of the catalog names. -/
def extract_product_from_order_context (products : List Product) (msg : String)
    (llm : Except Unit String) : PyM (Option String) :=
  let lowered := lowerStr msg
  match products.find? (fun p => substrOf (lowerStr p.name) lowered) with
  | some p => .ok (some p.name)
  | none =>
    match keyword_map.find? (fun kv => substrOf kv.1 lowered) with
    | some kv => .ok (some kv.2)
    | none =>
      let options := products.map (fun p => p.name)
      match api llm with
      | .error e => .error e
      | .ok r =>
        let ans := pyStrip r
        .ok (if options.contains ans then some ans else none)

/-! ## backend.py : tools -/

/-- The structured dictionaries the tools hand to `natural_format`. -/
inductive ToolData where
  | productList (category : String) (products : List Product)
  | productInfo (name price stock : String)
  | orderInfo (order_id status delivery : String)
  | orderNotFound
  | refundPolicy (policy : String)
  | summary (products : List Product)
  | info (message : String)
  deriving Repr, DecidableEq

/-- The JSON object parsed from the explorer LLM's answer: an optional
`category` field and a `products` list (missing list modelled as `[]`,
matching `data.get("products", [])`). -/
structure ExplorerData where
  category : Option String
  products : List Product
  deriving Repr, DecidableEq

/-- The dictionary `tool_ai_product_explorer` returns (sans the constant
`"type": "product_list"` tag). -/
structure ExplorerResult where
  category : String
  products : List Product
  deriving Repr, DecidableEq

/-- Append a product name to `conversation_products` unless already present
(the `if name not in ...: append` idiom). -/
def appendIfAbsent (l : List String) (n : String) : List String :=
  if l.contains n then l else l ++ [n]

/-- Record a product name in memory, deduplicating. -/
def pushProduct (mem : Memory) (n : String) : Memory :=
  { mem with conversation_products := appendIfAbsent mem.conversation_products n }

/-- `backend.tool_ai_product_explorer`.  The oracle is the API call:
`.error ()` = the call raised (before the `try`, so it escapes);
`.ok none` = the answer was not valid JSON (`json.loads` raised, caught, full
catalog returned); `.ok (some data)` = parsed JSON. -/
def tool_ai_product_explorer (products : List Product) (mem : Memory) (_query : String)
    (oracle : Except Unit (Option ExplorerData)) : Memory × PyM ExplorerResult :=
  let product_list := products
  match oracle with
  | .error () => (mem, .error .apiThrow)
  | .ok none =>
    let mem := product_list.foldl (fun m p => pushProduct m p.name) mem
    (mem, .ok ⟨"All Products", product_list⟩)
  | .ok (some data) =>
    let mem := { mem with last_intent := some "product" }
    let mem := data.products.foldl (fun m p => pushProduct m p.name) mem
    (mem, .ok ⟨data.category.getD "Products", data.products⟩)

/-- `backend.tool_product_lookup`: explorer call, single-item shortcut,
LLM choice over the candidates, first-item fallback (which indexes
`products[0]`, an `IndexError` when the candidate list is empty). -/
def tool_product_lookup (products : List Product) (mem : Memory) (query : String)
    (expOracle : Except Unit (Option ExplorerData))
    (choiceOracle : Except Unit String) : Memory × PyM ToolData :=
  match tool_ai_product_explorer products mem query expOracle with
  | (mem1, .error e) => (mem1, .error e)
  | (mem1, .ok result) =>
    match result.products with
    | [p] => (pushProduct mem1 p.name, .ok (.productInfo p.name p.price p.stock))
    | ps =>
      match api choiceOracle with
      | .error e => (mem1, .error e)
      | .ok raw =>
        match ps.find? (fun p => lowerStr p.name == lowerStr (pyStrip raw)) with
        | some p => (pushProduct mem1 p.name, .ok (.productInfo p.name p.price p.stock))
        | none =>
          match ps with
          | [] => (mem1, .error .indexError)
          | p :: _ => (pushProduct mem1 p.name, .ok (.productInfo p.name p.price p.stock))

/-- `backend.tool_order_lookup`: unconditionally records the intent and the
order id in memory, then looks the id up in the orders table. -/
def tool_order_lookup (orders : List (String × OrderInfo)) (mem : Memory)
    (order_id : String) : Memory × ToolData :=
  let mem := { mem with last_intent := some "order", last_order_id := some order_id }
  match orders.find? (fun kv => kv.1 == order_id) with
  | some kv => (mem, .orderInfo order_id kv.2.status kv.2.delivery_date)
  | none => (mem, .orderNotFound)

/-- `backend.tool_refund_policy`. -/
def tool_refund_policy (policy : String) (mem : Memory) : Memory × ToolData :=
  ({ mem with last_intent := some "refund" }, .refundPolicy policy)

/-! ## backend.py : formatting and the /chat handler -/

/-- A tool call chosen by the OpenAI router (arguments already parsed;
`none` fields model missing JSON keys, a `KeyError` on access). -/
structure RouterCall where
  fname : String
  query : Option String
  order_id : Option String
  deriving Repr, DecidableEq

/-- The router response: finish reason, tool calls, raw message content. -/
structure RouterChoice where
  finishReason : String
  toolCalls : List RouterCall
  content : Option String
  deriving Repr, DecidableEq

/-- One oracle per LLM call site reachable in a single `/chat` request. -/
structure Oracles where
  recallAnswer : Except Unit String
  missingAnswer : Except Unit String
  orderIdAnswer : Except Unit String
  orderCtxAnswer : Except Unit String
  explorerAnswer : Except Unit (Option ExplorerData)
  choiceAnswer : Except Unit String
  natAnswer : ToolData → Except Unit String
  routerAnswer : Except Unit RouterChoice
  isoLang : Option String
  langLLMAnswer : Except Unit String

/-- `backend.natural_format`: detects the language (exceptions escape), then
one API call producing the prose reply. -/
def natural_format (user_msg : String) (tool_data : ToolData) (o : Oracles) : PyM String :=
  match detect_language user_msg o.isoLang o.langLLMAnswer with
  | .error e => .error e
  | .ok _user_lang => api (o.natAnswer tool_data)

/-- Result of one `/chat` request: the JSON `reply` field, the memory left
behind, plus two bookkeeping fields for the theorems below: which of the
four lookups ran, and whether the reply came out of `natural_format`. -/
structure ChatResult where
  reply : Option String
  mem : Memory
  toolsUsed : List String
  viaNatural : Bool
  deriving Repr, DecidableEq

/-- Build the `{"reply": natural_format(...)}` response. -/
def replyNat (user : String) (td : ToolData) (o : Oracles) (mem : Memory)
    (tools : List String) : PyM ChatResult :=
  match natural_format user td o with
  | .error e => .error e
  | .ok s => .ok ⟨some s, mem, tools, true⟩

/-- Summary keywords of `chat` step (A), in source order. -/
def summary_keywords : List String :=
  ["özetle", "konuştuklarımız", "konuştugumuz", "bana özetle",
   "summarize", "summary", "products we talked", "summary of", "made a summary",
   "ملخص", "لخص", "تلخيص", "ما تحدثنا عنه", "ما ناقشنا",
   "الأشياء التي تحدثنا عنها", "المنتجات التي تحدثنا عنها",
   "اعطني ملخص", "نظرة عامة"]

/-- Product-indicator keywords of `chat` step (B). -/
def product_keywords : List String :=
  ["camera", "earbud", "earbuds", "speaker", "charger", "headphone",
   "fitness", "video", "sound", "audio",
   "kulak", "kulaklık", "hoparlör", "spor", "şarj", "kamera", "video",
   "سماعة", "سماعات", "كاميرا", "الصوت", "صوت", "شاحن", "بطارية",
   "طاقة", "رياضة", "لياقة"]

/-- Order-indicator keywords of `chat` step (B). -/
def order_keywords : List String :=
  ["order", "track", "tracking", "sipariş", "takip", "تتبع", "طلب"]

/-- Demonstratives of `chat` step (C). -/
def refer_words : List String :=
  ["it", "this", "that", "bu", "şu", "هو", "هي", "هذا", "هذه", "ذلك", "تلك"]

/-- Refund keywords of `chat` step (F). -/
def refund_keywords : List String :=
  ["refund", "return", "iade", "geri", "استرجاع", "تبديل",
   "ارجاع", "مرتجعات", "رجوع", "اعادة"]

/-- `chat` steps (G)/(H)/(I): the AI router, tool execution, and the raw
fallback return of `choice.message.content`. -/
def chatStepRouter (products : List Product) (orders : List (String × OrderInfo))
    (policy : String) (mem : Memory) (user : String) (o : Oracles) : PyM ChatResult :=
  match api o.routerAnswer with
  | .error e => .error e
  | .ok choice =>
    if choice.finishReason == "tool_calls" then
      match choice.toolCalls.head? with
      | none => .error .indexError
      | some call =>
        if call.fname == "tool_ai_product_explorer" then
          match call.query with
          | none => .error .keyError
          | some q =>
            match tool_ai_product_explorer products mem q o.explorerAnswer with
            | (_, .error e) => .error e
            | (mem1, .ok er) =>
              replyNat user (.productList er.category er.products) o mem1 ["product"]
        else if call.fname == "tool_product_lookup" then
          match call.query with
          | none => .error .keyError
          | some q =>
            match tool_product_lookup products mem q o.explorerAnswer o.choiceAnswer with
            | (_, .error e) => .error e
            | (mem1, .ok td) => replyNat user td o mem1 ["product"]
        else if call.fname == "tool_order_lookup" then
          match call.order_id with
          | none => .error .keyError
          | some oid =>
            let r := tool_order_lookup orders mem oid
            replyNat user r.2 o r.1 ["order"]
        else if call.fname == "tool_refund_policy" then
          let r := tool_refund_policy policy mem
          replyNat user r.2 o r.1 ["refund"]
        else .ok ⟨choice.content, mem, [], false⟩
    else .ok ⟨choice.content, mem, [], false⟩

/-- `chat` step (F): refund keywords take priority over the router. -/
def chatStepF (products : List Product) (orders : List (String × OrderInfo))
    (policy : String) (mem : Memory) (user : String) (o : Oracles)
    (lower : String) : PyM ChatResult :=
  if refund_keywords.any (fun w => substrOf w lower) then
    let r := tool_refund_policy policy mem
    replyNat user r.2 o r.1 ["refund"]
  else chatStepRouter products orders policy mem user o

/-- `chat` step (E): the order-id-missing flow. -/
def chatStepE (products : List Product) (orders : List (String × OrderInfo))
    (policy : String) (mem : Memory) (user : String) (o : Oracles)
    (lower : String) : PyM ChatResult :=
  if mem.last_intent == some "order" then
    match ai_order_id_missing user o.missingAnswer with
    | .error e => .error e
    | .ok missing =>
      if missing then
        match extract_product_from_order_context products user o.orderCtxAnswer with
        | .error e => .error e
        | .ok pn? =>
          if truthyStr pn? then
            let product_name := pn?.getD ""
            let mem1 := { mem with order_product := some product_name }
            match products.find? (fun p => p.name == product_name) with
            | some p =>
              replyNat user (.productInfo p.name p.price p.stock) o mem1 ["product"]
            | none => .error .stopIteration
          else
            replyNat user
              (.info "Please check your email for your order confirmation ID.") o mem []
      else chatStepF products orders policy mem user o lower
  else chatStepF products orders policy mem user o lower

/-- `chat` step (D): order-id extraction always runs before the router. -/
def chatStepD (products : List Product) (orders : List (String × OrderInfo))
    (policy : String) (mem : Memory) (user : String) (o : Oracles)
    (lower : String) : PyM ChatResult :=
  match extract_order_id user o.orderIdAnswer with
  | .error e => .error e
  | .ok extracted_id =>
    if truthyStr extracted_id then
      let r := tool_order_lookup orders mem (extracted_id.getD "")
      replyNat user r.2 o r.1 ["order"]
    else chatStepE products orders policy mem user o lower

/-- `chat` step (C): referential memory on demonstrative tokens. -/
def chatStepC (products : List Product) (orders : List (String × OrderInfo))
    (policy : String) (mem : Memory) (user : String) (o : Oracles)
    (lower : String) : PyM ChatResult :=
  let tokens := pySplitWs lower
  if refer_words.any (fun w => tokens.contains w) then
    if truthyStr mem.order_product then
      match tool_product_lookup products mem (mem.order_product.getD "")
          o.explorerAnswer o.choiceAnswer with
      | (_, .error e) => .error e
      | (mem1, .ok td) => replyNat user td o mem1 ["product"]
    else
      match mem.conversation_products.getLast? with
      | some last_product =>
        match tool_product_lookup products mem last_product
            o.explorerAnswer o.choiceAnswer with
        | (_, .error e) => .error e
        | (mem1, .ok td) => replyNat user td o mem1 ["product"]
      | none => chatStepD products orders policy mem user o lower
  else chatStepD products orders policy mem user o lower

/-- `backend.chat`, the `/chat` handler: summary keywords (A), topic recall
(B), then steps (C)–(I) via the step functions above. -/
def chat (products : List Product) (orders : List (String × OrderInfo))
    (policy : String) (mem : Memory) (user : String) (o : Oracles) : PyM ChatResult :=
  let lower := lowerStr user
  if summary_keywords.any (fun k => substrOf k lower) then
    let items := mem.conversation_products
    let product_summary := items.flatMap (fun name => products.filter (fun p => p.name == name))
    replyNat user (.summary product_summary) o mem ["summary"]
  else
    match ai_topic_recall user o.recallAnswer with
    | .error e => .error e
    | .ok want_recall =>
      if want_recall &&
          !((product_keywords ++ order_keywords).any (fun w => substrOf w lower)) then
        match mem.conversation_products.getLast? with
        | some last_product =>
          match tool_product_lookup products mem last_product
              o.explorerAnswer o.choiceAnswer with
          | (_, .error e) => .error e
          | (mem1, .ok td) => replyNat user td o mem1 ["product"]
        | none => replyNat user (.summary []) o mem []
      else chatStepC products orders policy mem user o lower

/-- A benign oracle assignment used by concrete instantiations below:
the recall and missing questions are answered "NO", the extraction LLMs
answer "NONE", the explorer answer fails to parse, the formatter answers
"PROSE", and the router answers with plain content and no tool call. -/
def quietOracles : Oracles :=
  { recallAnswer := .ok "NO", missingAnswer := .ok "NO",
    orderIdAnswer := .ok "NONE", orderCtxAnswer := .ok "NONE",
    explorerAnswer := .ok none, choiceAnswer := .ok "x",
    natAnswer := fun _ => .ok "PROSE",
    routerAnswer := .ok ⟨"stop", [], some "Hi!"⟩,
    isoLang := some "en", langLLMAnswer := .ok "English" }

example : chat [] [] "p" memory "hola" quietOracles =
    .ok ⟨some "Hi!", memory, [], false⟩ := by decide

example : chat [] [] "p" memory "hello"
    { quietOracles with recallAnswer := .error () } = .error .apiThrow := by decide

example : detect_intent "Where is my Order?" = "order" := by decide
example : detect_intent "hello" = "unknown" := by decide

/-- A concrete catalog holding exactly the products named by the hardcoded
keyword map, used to instantiate the parametrised theorems. -/
def demoCatalog : List Product :=
  [⟨"Wireless Earbuds", "$49", "in stock"⟩,
   ⟨"Noise Cancelling Headphones", "$129", "in stock"⟩,
   ⟨"Bluetooth Speaker Mini", "$39", "in stock"⟩,
   ⟨"4K Action Camera", "$199", "low"⟩,
   ⟨"Fitness Tracker Band", "$59", "in stock"⟩]

/-- The memory-appending operations of claim C8, with their oracles. -/
inductive MemOp where
  | explore (productList : List Product) (query : String)
      (oracle : Except Unit (Option ExplorerData))
  | lookupOne (productList : List Product) (query : String)
      (oracle : Except Unit (Option ExplorerData)) (choice : Except Unit String)

/-- Memory left behind by one operation (mutations made before an exception
persist, since the Python memory is process-global). -/
def runMemOp (mem : Memory) : MemOp → Memory
  | .explore ps q oracle => (tool_ai_product_explorer ps mem q oracle).1
  | .lookupOne ps q oracle choice => (tool_product_lookup ps mem q oracle choice).1

/-- Memory after a sequence of operations. -/
def runMemOps (ops : List MemOp) (mem : Memory) : Memory := ops.foldl runMemOp mem

/-- Shape of every successful `/chat` reply: either it was produced by the
`natural_format` LLM call (on some tool data), or it is the router's raw
message content, returned with no lookup dispatched. -/
def ReplyShape (o : Oracles) (r : ChatResult) : Prop :=
  (r.viaNatural = true ∧ ∃ td s, o.natAnswer td = .ok s ∧ r.reply = some s) ∨
  (r.viaNatural = false ∧ r.toolsUsed = [] ∧
    ∃ rc, o.routerAnswer = .ok rc ∧ r.reply = rc.content)

/-! ## Claim theorems -/

/-- C1 counterexample: there is no keyword-map stage between the regex and
the LLM in `extract_order_id`.  On "earbud order please" the repository's
(only) keyword map matches the keyword "earbud", yet the LLM is still
consulted: a throwing LLM oracle makes the extraction raise, so the LLM is
asked whenever the regex fails — not only after a keyword stage also
fails. -/
theorem extract_order_id_no_keyword_stage_cex :
    keyword_map.find? (fun kv => substrOf kv.1 (lowerStr "earbud order please")) =
      some ("earbud", "Wireless Earbuds") ∧
    extract_order_id "earbud order please" (.error ()) = .error .apiThrow := by
  decide

/-- C1 (amended): order-id extraction is a two-stage fallback chain with no
keyword-map stage.  If the regex `\b(\d{5})\b` matches, the first match is
returned and the LLM is never consulted (the result is the same for every
oracle, including a throwing one); whenever the regex fails the LLM is
asked, and its answer is returned exactly when it is five digits, otherwise
the result is `None`. -/
theorem extract_order_id_fallback_chain (msg : String) (llm : Except Unit String) :
    (∀ id, findFive msg = some id → extract_order_id msg llm = .ok (some id)) ∧
    (findFive msg = none →
      (llm = .error () → extract_order_id msg llm = .error .apiThrow) ∧
      (∀ a, llm = .ok a →
        extract_order_id msg llm =
          .ok (if pyIsDigit (pyStrip a) && (pyStrip a).length == 5
               then some (pyStrip a) else none))) := by
  unfold extract_order_id
  constructor
  · intro id h
    rw [h]
  · intro h
    rw [h]
    constructor
    · intro hl; rw [hl]; rfl
    · intro a hl; rw [hl]; rfl

/-- C1 witness: on "my order 24839?? thanks" the regex stage answers even
though the LLM throws; on a message without a five-digit token the LLM
answer " 77777 " is stripped and accepted while "seven" is rejected. -/
theorem extract_order_id_fallback_chain_witness :
    extract_order_id "my order 24839?? thanks" (.error ()) = .ok (some "24839") ∧
    extract_order_id "no id here" (.ok " 77777 ") = .ok (some "77777") ∧
    extract_order_id "no id here" (.ok "seven") = .ok none := by
  refine ⟨?_, ?_, ?_⟩
  · exact (extract_order_id_fallback_chain "my order 24839?? thanks" (.error ())).1
      "24839" (by decide)
  · exact (((extract_order_id_fallback_chain "no id here" (.ok " 77777 ")).2
      (by decide)).2 " 77777 " rfl).trans (by decide)
  · exact (((extract_order_id_fallback_chain "no id here" (.ok "seven")).2
      (by decide)).2 "seven" rfl).trans (by decide)

/-- C2 counterexample: on "hello" `detect_intent` returns "unknown", which is
not one of {product, order, refund, summary, fallback}. -/
theorem detect_intent_unknown_cex :
    ¬ (detect_intent "hello" ∈
        (["product", "order", "refund", "summary", "fallback"] : List String)) := by
  decide

/-- C2 (amended): for every input string, `detect_intent` returns one of
{order, refund, product, unknown} — "unknown" (which routes to the LLM
fallback), not "fallback", and "summary" is never produced. -/
theorem detect_intent_range (s : String) :
    detect_intent s ∈ (["order", "refund", "product", "unknown"] : List String) := by
  simp only [detect_intent]
  split
  · simp
  · split
    · simp
    · split <;> simp

/-- Helper: any language produced by the explicit-override detector is one of
the four supported names. -/
theorem explicit_request_mem (msg : String) (L : String)
    (h : detect_explicit_language_request msg = some L) : L ∈ supported_languages := by
  simp only [detect_explicit_language_request] at h
  split at h
  · simp_all [supported_languages]
  · split at h
    · simp_all [supported_languages]
    · split at h
      · simp_all [supported_languages]
      · split at h
        · simp_all [supported_languages]
        · simp_all

/-- C6: every value `detect_language` returns is one of
{English, Turkish, Arabic, Spanish}, and an explicit in-message request
("respond me in X" / "reply in X") takes precedence over both the ISO
detection result and the LLM fallback: whenever the explicit detector fires,
its language is returned for every ISO result and every LLM oracle. -/
theorem detect_language_range_and_override (msg : String) (iso : Option String)
    (llm : Except Unit String) :
    (∀ s, detect_language msg iso llm = .ok s → s ∈ supported_languages) ∧
    (∀ L, detect_explicit_language_request msg = some L →
      detect_language msg iso llm = .ok L) := by
  constructor
  · intro s hs
    simp only [detect_language] at hs
    cases hx : detect_explicit_language_request msg with
    | some f =>
      rw [hx] at hs
      injection hs with h2
      exact h2 ▸ explicit_request_mem msg f hx
    | none =>
      rw [hx] at hs
      cases iso with
      | some lang =>
        simp only at hs
        repeat' split at hs
        all_goals (injection hs with h2; subst h2; decide)
      | none =>
        cases llm with
        | error u =>
          cases u
          simp only [api] at hs
          exact Except.noConfusion hs
        | ok r =>
          simp only [api] at hs
          split at hs
          · injection hs with h2
            subst h2
            rename_i hcon
            simpa using hcon
          · injection hs with h2
            subst h2
            decide
  · intro L hL
    simp only [detect_language]
    rw [hL]

/-- C6 witness: "please reply in turkish" is assigned Turkish even though the
ISO detector says English and the LLM fallback would throw. -/
theorem detect_language_range_and_override_witness :
    detect_language "please reply in turkish" (some "en") (.error ()) = .ok "Turkish" :=
  (detect_language_range_and_override "please reply in turkish" (some "en")
    (.error ())).2 "Turkish" (by decide)

/-- C7: `tool_order_lookup` always records the looked-up id and the "order"
intent in memory — whether or not the order exists — and leaves
`conversation_products` and `order_product` unchanged. -/
theorem tool_order_lookup_memory_frame (orders : List (String × OrderInfo))
    (mem : Memory) (oid : String) :
    (tool_order_lookup orders mem oid).1.last_order_id = some oid ∧
    (tool_order_lookup orders mem oid).1.last_intent = some "order" ∧
    (tool_order_lookup orders mem oid).1.conversation_products =
      mem.conversation_products ∧
    (tool_order_lookup orders mem oid).1.order_product = mem.order_product := by
  unfold tool_order_lookup
  split <;> simp

/-- C10: `handle_product` compares the lowercased first word of each catalog
name against the raw user input; whenever no such lowercased word occurs in
the raw input, the default string is returned. -/
theorem handle_product_case_mismatch (products : List Product) (input : String)
    (h : ∀ p ∈ products, firstWordOf (lowerStr p.name) ≠ none ∧
      substrOf ((firstWordOf (lowerStr p.name)).getD "") input = false) :
    handle_product products input = .ok "Can you specify which product you mean?" := by
  unfold handle_product
  induction products with
  | nil => rfl
  | cons p rest ih =>
    obtain ⟨h1, h2⟩ := h p (List.mem_cons_self p rest)
    unfold handleProductLoop
    cases hw : firstWordOf (lowerStr p.name) with
    | none => exact absurd hw h1
    | some w =>
      rw [hw] at h2
      simp only [Option.getD] at h2
      simp only [h2, Bool.false_eq_true, if_false]
      exact ih (fun q hq => h q (List.mem_cons_of_mem p hq))

/-- C4: product extraction for order context is a fallback chain.  First the
direct catalog-name substring match on the lowercased message; when it fails,
the hardcoded keyword map; only when both fail is the LLM asked, and its
answer is accepted exactly when it equals a catalog name.  Earlier stages
answer for every LLM oracle (the LLM is not consulted), and — provided the
keyword map's values name catalog products — every non-`None` result is a
catalog name. -/
theorem extract_product_chain (products : List Product) (msg : String)
    (llm : Except Unit String)
    (hk : ∀ kv ∈ keyword_map, kv.2 ∈ products.map (fun p => p.name)) :
    (∀ r, extract_product_from_order_context products msg llm = .ok (some r) →
      r ∈ products.map (fun p => p.name)) ∧
    (∀ p, products.find? (fun p => substrOf (lowerStr p.name) (lowerStr msg)) = some p →
      extract_product_from_order_context products msg llm = .ok (some p.name)) ∧
    (products.find? (fun p => substrOf (lowerStr p.name) (lowerStr msg)) = none →
      ∀ kv, keyword_map.find? (fun kv => substrOf kv.1 (lowerStr msg)) = some kv →
        extract_product_from_order_context products msg llm = .ok (some kv.2)) ∧
    (products.find? (fun p => substrOf (lowerStr p.name) (lowerStr msg)) = none →
      keyword_map.find? (fun kv => substrOf kv.1 (lowerStr msg)) = none →
      (llm = .error () →
        extract_product_from_order_context products msg llm = .error .apiThrow) ∧
      (∀ a, llm = .ok a →
        extract_product_from_order_context products msg llm =
          .ok (if (products.map (fun p => p.name)).contains (pyStrip a)
               then some (pyStrip a) else none))) := by
  refine ⟨?_, ?_, ?_, ?_⟩
  · intro r hr
    simp only [extract_product_from_order_context] at hr
    cases h1 : products.find? (fun p => substrOf (lowerStr p.name) (lowerStr msg)) with
    | some p =>
      rw [h1] at hr
      injection hr with h2
      injection h2 with h3
      subst h3
      exact List.mem_map_of_mem (fun p => p.name) (List.mem_of_find?_eq_some h1)
    | none =>
      rw [h1] at hr
      cases h2 : keyword_map.find? (fun kv => substrOf kv.1 (lowerStr msg)) with
      | some kv =>
        rw [h2] at hr
        injection hr with h3
        injection h3 with h4
        subst h4
        exact hk kv (List.mem_of_find?_eq_some h2)
      | none =>
        rw [h2] at hr
        cases llm with
        | error u =>
          cases u
          simp only [api] at hr
          exact Except.noConfusion hr
        | ok a =>
          simp only [api] at hr
          split at hr
          · injection hr with h3
            injection h3 with h4
            subst h4
            rename_i hcon
            simpa using hcon
          · injection hr with h3
            exact Option.noConfusion h3
  · intro p hp
    simp only [extract_product_from_order_context]
    rw [hp]
  · intro h1 kv h2
    simp only [extract_product_from_order_context]
    rw [h1, h2]
  · intro h1 h2
    constructor
    · intro hl
      simp only [extract_product_from_order_context]
      rw [h1, h2, hl]
      rfl
    · intro a hl
      simp only [extract_product_from_order_context]
      rw [h1, h2, hl]
      rfl

/-- C4 witness: on "what about the camera i bought" the direct name match
fails, the keyword "camera" answers, and the result is a catalog name even
though the LLM oracle throws. -/
theorem extract_product_chain_witness :
    (∀ kv ∈ keyword_map, kv.2 ∈ demoCatalog.map (fun p => p.name)) ∧
    extract_product_from_order_context demoCatalog "what about the camera i bought"
      (.error ()) = .ok (some "4K Action Camera") :=
  ⟨by decide,
   (extract_product_chain demoCatalog "what about the camera i bought" (.error ())
      (by decide)).2.2.1 (by decide) ("camera", "4K Action Camera") (by decide)⟩

/-- Helper: the membership-checked append preserves `Nodup`. -/
theorem appendIfAbsent_nodup {l : List String} {n : String} (h : l.Nodup) :
    (appendIfAbsent l n).Nodup := by
  unfold appendIfAbsent
  split
  · exact h
  · rename_i hc
    have hn : n ∉ l := by simpa using hc
    simp [List.nodup_append, h, hn]

/-- Helper: `pushProduct` preserves `Nodup`. -/
theorem pushProduct_nodup (mem : Memory) (n : String)
    (h : mem.conversation_products.Nodup) :
    (pushProduct mem n).conversation_products.Nodup := appendIfAbsent_nodup h

/-- Helper: folding `pushProduct` over a product list preserves `Nodup`. -/
theorem foldl_pushProduct_nodup (ps : List Product) (mem : Memory)
    (h : mem.conversation_products.Nodup) :
    (ps.foldl (fun m p => pushProduct m p.name) mem).conversation_products.Nodup := by
  induction ps generalizing mem with
  | nil => exact h
  | cons p rest ih =>
    simp only [List.foldl_cons]
    exact ih _ (pushProduct_nodup mem p.name h)

/-- Helper: the explorer preserves `Nodup` of `conversation_products`. -/
theorem tool_ai_product_explorer_nodup (ps : List Product) (mem : Memory) (q : String)
    (oracle : Except Unit (Option ExplorerData)) (h : mem.conversation_products.Nodup) :
    (tool_ai_product_explorer ps mem q oracle).1.conversation_products.Nodup := by
  unfold tool_ai_product_explorer
  cases oracle with
  | error u => cases u; exact h
  | ok od =>
    cases od with
    | none => exact foldl_pushProduct_nodup _ _ h
    | some data => exact foldl_pushProduct_nodup _ _ h

/-- Helper: the product lookup preserves `Nodup` of `conversation_products`. -/
theorem tool_product_lookup_nodup (ps : List Product) (mem : Memory) (q : String)
    (oracle : Except Unit (Option ExplorerData)) (choice : Except Unit String)
    (h : mem.conversation_products.Nodup) :
    (tool_product_lookup ps mem q oracle choice).1.conversation_products.Nodup := by
  unfold tool_product_lookup
  rcases hE : tool_ai_product_explorer ps mem q oracle with ⟨mem1, r⟩
  have h1 : mem1.conversation_products.Nodup := by
    have hx := tool_ai_product_explorer_nodup ps mem q oracle h
    rw [hE] at hx
    exact hx
  cases r with
  | error e => exact h1
  | ok result =>
    rcases result with ⟨cat, prods⟩
    cases prods with
    | nil =>
      cases choice with
      | error u => cases u; exact h1
      | ok raw => exact h1
    | cons p rest =>
      cases rest with
      | nil => exact pushProduct_nodup _ _ h1
      | cons p2 rest2 =>
        cases choice with
        | error u => cases u; exact h1
        | ok raw =>
          simp only [api]
          split
          · exact pushProduct_nodup _ _ h1
          · exact pushProduct_nodup _ _ h1

/-- Helper: one operation preserves `Nodup`. -/
theorem runMemOp_nodup (mem : Memory) (op : MemOp)
    (h : mem.conversation_products.Nodup) :
    (runMemOp mem op).conversation_products.Nodup := by
  cases op with
  | explore ps q oracle => exact tool_ai_product_explorer_nodup ps mem q oracle h
  | lookupOne ps q oracle choice => exact tool_product_lookup_nodup ps mem q oracle choice h

/-- C8: starting from the initial (empty) memory, after any sequence of
`tool_ai_product_explorer` / `tool_product_lookup` operations — with any
catalogs and any oracle answers — `conversation_products` holds no duplicate
product name, because every append is membership-checked. -/
theorem conversation_products_nodup (ops : List MemOp) :
    (runMemOps ops memory).conversation_products.Nodup := by
  have gen : ∀ (l : List MemOp) (mem : Memory), mem.conversation_products.Nodup →
      (runMemOps l mem).conversation_products.Nodup := by
    intro l
    induction l with
    | nil => intro mem h; exact h
    | cons op rest ih =>
      intro mem h
      exact ih _ (runMemOp_nodup mem op h)
  exact gen ops memory (by simp [memory])

/-- Helper: when the explorer hands the lookup a candidate list, the lookup
raises `IndexError` only if that list is empty. -/
theorem lookup_after_explorer (products : List Product) (mem : Memory) (q : String)
    (expOracle : Except Unit (Option ExplorerData)) (choice : Except Unit String)
    (mem1 : Memory) (result : ExplorerResult)
    (hE : tool_ai_product_explorer products mem q expOracle = (mem1, .ok result))
    (hne : result.products ≠ []) :
    (tool_product_lookup products mem q expOracle choice).2 ≠ .error .indexError := by
  unfold tool_product_lookup
  rw [hE]
  rcases result with ⟨cat, prods⟩
  cases prods with
  | nil => exact absurd rfl hne
  | cons p rest =>
    cases rest with
    | nil => simp
    | cons p2 rest2 =>
      cases choice with
      | error u => cases u; simp [api]
      | ok raw =>
        simp only [api]
        repeat' split
        all_goals simp

/-- C9: when the explorer reports valid JSON with an empty products list, the
lookup's final fallback indexes `products[0]` and raises `IndexError` for
every choice the LLM makes; and whenever the explorer's candidate list is
nonempty, no `IndexError` is raised. -/
theorem tool_product_lookup_index_bound :
    (∀ (products : List Product) (mem : Memory) (q : String) (cat : Option String)
        (choice : String),
      (tool_product_lookup products mem q (.ok (some ⟨cat, []⟩)) (.ok choice)).2 =
        .error .indexError) ∧
    (∀ (products : List Product) (mem : Memory) (q : String)
        (expOracle : Except Unit (Option ExplorerData)) (choice : Except Unit String)
        (er : ExplorerResult),
      (tool_ai_product_explorer products mem q expOracle).2 = .ok er →
      er.products ≠ [] →
      (tool_product_lookup products mem q expOracle choice).2 ≠ .error .indexError) := by
  constructor
  · intro products mem q cat choice
    rfl
  · intro products mem q expOracle choice er hE2 hne
    have hE : tool_ai_product_explorer products mem q expOracle =
        ((tool_ai_product_explorer products mem q expOracle).1, .ok er) := by
      conv_rhs => rw [← hE2]
    exact lookup_after_explorer products mem q expOracle choice _ er hE hne

/-- C9 witness: with an explorer answer of valid JSON and no products the
lookup raises `IndexError`; with the five-product catalog (explorer JSON
unparseable, full catalog returned) it does not. -/
theorem tool_product_lookup_index_bound_witness :
    (tool_product_lookup [] memory "q" (.ok (some ⟨none, []⟩)) (.ok "x")).2 =
      .error .indexError ∧
    (tool_product_lookup demoCatalog memory "q" (.ok none) (.ok "x")).2 ≠
      .error .indexError :=
  ⟨tool_product_lookup_index_bound.1 [] memory "q" none "x",
   tool_product_lookup_index_bound.2 demoCatalog memory "q" (.ok none) (.ok "x")
     ⟨"All Products", demoCatalog⟩ (by decide) (by decide)⟩

/-- Helper: a reply built by `replyNat` is a `natural_format` product. -/
theorem replyNat_shape (user : String) (td : ToolData) (o : Oracles) (mem : Memory)
    (tools : List String) (res : ChatResult)
    (h : replyNat user td o mem tools = .ok res) : ReplyShape o res := by
  unfold replyNat at h
  cases hnf : natural_format user td o with
  | error e => rw [hnf] at h; exact Except.noConfusion h
  | ok s =>
    rw [hnf] at h
    injection h with h2
    subst h2
    refine Or.inl ⟨rfl, td, s, ?_, rfl⟩
    unfold natural_format at hnf
    cases hdl : detect_language user o.isoLang o.langLLMAnswer with
    | error e => rw [hdl] at hnf; exact Except.noConfusion hnf
    | ok lang =>
      rw [hdl] at hnf
      cases hna : o.natAnswer td with
      | error u => cases u; rw [hna] at hnf; exact Except.noConfusion hnf
      | ok s' =>
        rw [hna] at hnf
        injection hnf with h3
        rw [h3]

/-- Helper: router-step replies satisfy `ReplyShape`. -/
theorem chatStepRouter_shape (products : List Product)
    (orders : List (String × OrderInfo)) (policy : String) (mem : Memory)
    (user : String) (o : Oracles) (res : ChatResult)
    (h : chatStepRouter products orders policy mem user o = .ok res) :
    ReplyShape o res := by
  unfold chatStepRouter at h
  cases hra : o.routerAnswer with
  | error u => cases u; rw [hra] at h; exact Except.noConfusion h
  | ok rc =>
    simp only [hra, api] at h
    split at h
    · cases hh : rc.toolCalls.head? with
      | none => rw [hh] at h; exact Except.noConfusion h
      | some call =>
        simp only [hh] at h
        split at h
        · cases hq : call.query with
          | none => rw [hq] at h; exact Except.noConfusion h
          | some q =>
            simp only [hq] at h
            rcases hE : tool_ai_product_explorer products mem q o.explorerAnswer
              with ⟨mem1, rr⟩
            rw [hE] at h
            cases rr with
            | error e => exact Except.noConfusion h
            | ok er => exact replyNat_shape _ _ _ _ _ _ h
        · split at h
          · cases hq : call.query with
            | none => rw [hq] at h; exact Except.noConfusion h
            | some q =>
              simp only [hq] at h
              rcases hL : tool_product_lookup products mem q o.explorerAnswer
                o.choiceAnswer with ⟨mem1, rr⟩
              rw [hL] at h
              cases rr with
              | error e => exact Except.noConfusion h
              | ok td => exact replyNat_shape _ _ _ _ _ _ h
          · split at h
            · cases hq : call.order_id with
              | none => rw [hq] at h; exact Except.noConfusion h
              | some oid =>
                simp only [hq] at h
                exact replyNat_shape _ _ _ _ _ _ h
            · split at h
              · exact replyNat_shape _ _ _ _ _ _ h
              · injection h with h2
                subst h2
                exact Or.inr ⟨rfl, rfl, rc, hra, rfl⟩
    · injection h with h2
      subst h2
      exact Or.inr ⟨rfl, rfl, rc, hra, rfl⟩

/-- Helper: refund-step replies satisfy `ReplyShape`. -/
theorem chatStepF_shape (products : List Product)
    (orders : List (String × OrderInfo)) (policy : String) (mem : Memory)
    (user : String) (o : Oracles) (lower : String) (res : ChatResult)
    (h : chatStepF products orders policy mem user o lower = .ok res) :
    ReplyShape o res := by
  simp only [chatStepF] at h
  split at h
  · exact replyNat_shape _ _ _ _ _ _ h
  · exact chatStepRouter_shape _ _ _ _ _ _ _ h

/-- Helper: order-id-missing-step replies satisfy `ReplyShape`. -/
theorem chatStepE_shape (products : List Product)
    (orders : List (String × OrderInfo)) (policy : String) (mem : Memory)
    (user : String) (o : Oracles) (lower : String) (res : ChatResult)
    (h : chatStepE products orders policy mem user o lower = .ok res) :
    ReplyShape o res := by
  simp only [chatStepE] at h
  split at h
  · cases hm : ai_order_id_missing user o.missingAnswer with
    | error e => rw [hm] at h; exact Except.noConfusion h
    | ok missing =>
      simp only [hm] at h
      split at h
      · cases hx : extract_product_from_order_context products user o.orderCtxAnswer with
        | error e => rw [hx] at h; exact Except.noConfusion h
        | ok pn? =>
          simp only [hx] at h
          split at h
          · cases hf : products.find? (fun p => p.name == pn?.getD "") with
            | some p =>
              simp only [hf] at h
              exact replyNat_shape _ _ _ _ _ _ h
            | none => rw [hf] at h; exact Except.noConfusion h
          · exact replyNat_shape _ _ _ _ _ _ h
      · exact chatStepF_shape _ _ _ _ _ _ _ _ h
  · exact chatStepF_shape _ _ _ _ _ _ _ _ h

/-- Helper: order-id-extraction-step replies satisfy `ReplyShape`. -/
theorem chatStepD_shape (products : List Product)
    (orders : List (String × OrderInfo)) (policy : String) (mem : Memory)
    (user : String) (o : Oracles) (lower : String) (res : ChatResult)
    (h : chatStepD products orders policy mem user o lower = .ok res) :
    ReplyShape o res := by
  simp only [chatStepD] at h
  cases hx : extract_order_id user o.orderIdAnswer with
  | error e => rw [hx] at h; exact Except.noConfusion h
  | ok extracted_id =>
    simp only [hx] at h
    split at h
    · exact replyNat_shape _ _ _ _ _ _ h
    · exact chatStepE_shape _ _ _ _ _ _ _ _ h

/-- Helper: referential-step replies satisfy `ReplyShape`. -/
theorem chatStepC_shape (products : List Product)
    (orders : List (String × OrderInfo)) (policy : String) (mem : Memory)
    (user : String) (o : Oracles) (lower : String) (res : ChatResult)
    (h : chatStepC products orders policy mem user o lower = .ok res) :
    ReplyShape o res := by
  simp only [chatStepC] at h
  split at h
  · split at h
    · rcases hL : tool_product_lookup products mem (mem.order_product.getD "")
        o.explorerAnswer o.choiceAnswer with ⟨mem1, rr⟩
      rw [hL] at h
      cases rr with
      | error e => exact Except.noConfusion h
      | ok td => exact replyNat_shape _ _ _ _ _ _ h
    · cases hg : mem.conversation_products.getLast? with
      | some last_product =>
        simp only [hg] at h
        rcases hL : tool_product_lookup products mem last_product
          o.explorerAnswer o.choiceAnswer with ⟨mem1, rr⟩
        rw [hL] at h
        cases rr with
        | error e => exact Except.noConfusion h
        | ok td => exact replyNat_shape _ _ _ _ _ _ h
      | none =>
        rw [hg] at h
        exact chatStepD_shape _ _ _ _ _ _ _ _ h
  · exact chatStepD_shape _ _ _ _ _ _ _ _ h

/-- C5 counterexample: on "hola", with the router answering plain content
"Hi!" and no tool call (and the formatter oracle answering "PROSE"), the
`/chat` handler returns the raw router content — no lookup is dispatched and
the reply does not pass through `natural_format`. -/
theorem chat_router_raw_reply_cex :
    chat [] [] "p" memory "hola" quietOracles =
      .ok ⟨some "Hi!", memory, [], false⟩ := by
  decide

/-- C5 (amended): every successful `/chat` reply either is produced by the
`natural_format` LLM call — on the result of one of the four lookups, on a
summary, or on the inline info/product dictionaries of the
order-id-missing flow — or, when the router makes no recognized tool call,
is the router's raw message content with no lookup dispatched. -/
theorem chat_reply_shape (products : List Product)
    (orders : List (String × OrderInfo)) (policy : String) (mem : Memory)
    (user : String) (o : Oracles) (res : ChatResult)
    (h : chat products orders policy mem user o = .ok res) :
    ReplyShape o res := by
  simp only [chat] at h
  split at h
  · exact replyNat_shape _ _ _ _ _ _ h
  · cases hr : ai_topic_recall user o.recallAnswer with
    | error e => rw [hr] at h; exact Except.noConfusion h
    | ok want_recall =>
      simp only [hr] at h
      split at h
      · cases hg : mem.conversation_products.getLast? with
        | some last_product =>
          simp only [hg] at h
          rcases hL : tool_product_lookup products mem last_product
            o.explorerAnswer o.choiceAnswer with ⟨mem1, rr⟩
          rw [hL] at h
          cases rr with
          | error e => exact Except.noConfusion h
          | ok td => exact replyNat_shape _ _ _ _ _ _ h
        | none =>
          rw [hg] at h
          exact replyNat_shape _ _ _ _ _ _ h
      · exact chatStepC_shape _ _ _ _ _ _ _ _ h

/-- C5 witness: the amended theorem applied to the "hola" request. -/
theorem chat_reply_shape_witness :
    ReplyShape quietOracles ⟨some "Hi!", memory, [], false⟩ :=
  chat_reply_shape [] [] "p" memory "hola" quietOracles
    ⟨some "Hi!", memory, [], false⟩ (by decide)

/-- C3 counterexample: on "hello", when the API call inside
`ai_topic_recall` raises, the `/chat` handler propagates the exception —
no default string is returned. -/
theorem chat_llm_throw_no_default_cex :
    chat [] [] "p" memory "hello" { quietOracles with recallAnswer := .error () } =
      .error .apiThrow := by
  decide

/-- C3 (amended): an exception escaping an LLM API call propagates out of
the `/chat` handler instead of being replaced by a default string.  For
every request whose message matches no summary keyword, a throwing
`ai_topic_recall` call makes the whole handler raise. -/
theorem chat_api_throw_propagates (products : List Product)
    (orders : List (String × OrderInfo)) (policy : String) (mem : Memory)
    (user : String) (o : Oracles)
    (hs : summary_keywords.any (fun k => substrOf k (lowerStr user)) = false)
    (hr : o.recallAnswer = .error ()) :
    chat products orders policy mem user o = .error .apiThrow := by
  simp only [chat]
  rw [hs]
  simp only [Bool.false_eq_true, if_false]
  rw [hr]
  rfl

/-- C3 witness: the amended theorem applied to the "hello" request with a
throwing recall oracle. -/
theorem chat_api_throw_propagates_witness :
    chat [] [] "p" memory "hello" { quietOracles with recallAnswer := .error () } =
      .error .apiThrow :=
  chat_api_throw_propagates [] [] "p" memory "hello"
    { quietOracles with recallAnswer := .error () } (by decide) rfl

/-- C10 witness: with catalog name "Wireless Earbuds" and input
"Wireless Earbuds please" — which contains the product name verbatim but not
the lowercase "wireless" — the default string is returned. -/
theorem handle_product_case_mismatch_witness :
    substrOf "Wireless Earbuds" "Wireless Earbuds please" = true ∧
    handle_product [⟨"Wireless Earbuds", "$49", "in stock"⟩] "Wireless Earbuds please" =
      .ok "Can you specify which product you mean?" :=
  ⟨by decide, handle_product_case_mismatch
    [⟨"Wireless Earbuds", "$49", "in stock"⟩] "Wireless Earbuds please" (by decide)⟩
example :
    handle_product [⟨"Wireless Earbuds", "$49", "in stock"⟩] "Wireless Earbuds please" =
      .ok "Can you specify which product you mean?" := by decide
example :
    handle_product [⟨"Wireless Earbuds", "$49", "in stock"⟩] "wireless ones" =
      .ok "Wireless Earbuds costs $49 and is in stock." := by decide
